import Mathlib

/-!
Shallow embedding of the Auto_TimeTable_Generator web application (src/TT.py)
and verification of its specification claims.

The application manages a teacher roster and generates a 4-class x 5-period
weekly timetable through a CP-SAT constraint model.  Pure request handlers are
embedded as Lean functions over explicit state (the database tables); the
external solver is an abstract parameter returning a status, and the werkzeug
password check is an abstract boolean parameter.
-/

namespace TT

/-- A row of the `teachers` table: `id INTEGER PRIMARY KEY AUTOINCREMENT`,
`name TEXT UNIQUE`, `subject TEXT`. -/
structure Teacher where
  id : Nat
  name : String
  subject : String
deriving DecidableEq, Repr

/-- A row of the `timetable` table: `class_name TEXT`, `slot INTEGER`,
`teacher_name TEXT` (the timestamp column plays no role in the claims). -/
structure Row where
  class_name : String
  slot : Int
  teacher_name : String
deriving DecidableEq, Repr

/-- `classes = ['MCA I', 'MCA II', 'MSC I', 'MSC II']` (TT.py line 253). -/
def classes : List String := ["MCA I", "MCA II", "MSC I", "MSC II"]

/-- `periods = range(1, 6)` (TT.py line 254). -/
def periods : List Int := [1, 2, 3, 4, 5]

/-- The 20 (class, period) slot keys, in the iteration order of the
nested loops of TT.py lines 259-261. -/
def slotKeys : List (String × Int) :=
  classes.flatMap (fun c => periods.map (fun p => (c, p)))

/-- Python `min(list)` for a nonempty list (raises on empty; the `[]` case
here is never reached by the guarded caller). -/
def listMin : List Nat → Nat
  | [] => 0
  | x :: xs => xs.foldl Nat.min x

/-- Python `max(list)` for a nonempty list (raises on empty; the `[]` case
here is never reached by the guarded caller). -/
def listMax : List Nat → Nat
  | [] => 0
  | x :: xs => xs.foldl Nat.max x

/-- The CP-SAT model built by `generate_timetable_process`: one integer
variable per slot key with inclusive bounds, plus `AddAllDifferent`
constraints, each over a list of variable keys. -/
structure CpModelE where
  varBounds : List ((String × Int) × Nat × Nat)
  allDiffs : List (List (String × Int))
deriving DecidableEq

/-- The model of TT.py lines 256-278: every variable gets bounds
`[min(teacher_ids), max(teacher_ids)]` (line 261); one all-different
constraint per period across the classes (line 268) and one per class
across the periods (line 276). -/
def buildModel (roster : List Teacher) : CpModelE :=
  let teacher_ids := roster.map (·.id)
  let lo := listMin teacher_ids
  let hi := listMax teacher_ids
  { varBounds := slotKeys.map (fun k => (k, lo, hi))
    allDiffs := periods.map (fun p => classes.map (fun c => (c, p)))
        ++ classes.map (fun c => periods.map (fun p => (c, p))) }

/-- Whether value `v` lies in the domain of the variable keyed `k` in model
`m` (CP-SAT `NewIntVar(lo, hi, name)` gives the full integer interval). -/
def inDomain (m : CpModelE) (k : String × Int) (v : Nat) : Bool :=
  match m.varBounds.find? (fun e => e.1 == k) with
  | some e => e.2.1 ≤ v && v ≤ e.2.2
  | none => false

/-- An assignment `sol` satisfies model `m` when every variable is within
its bounds and every all-different constraint gets pairwise distinct
values. -/
def satisfiesB (m : CpModelE) (sol : String × Int → Nat) : Bool :=
  m.varBounds.all (fun e => decide (e.2.1 ≤ sol e.1 ∧ sol e.1 ≤ e.2.2)) &&
    m.allDiffs.all (fun ks => decide (ks.map sol).Nodup)

/-- Outcome of `solver.Solve(model)`: the CP-SAT statuses, with the
solution values attached to the two success statuses. -/
inductive SolveStatus where
  | optimal (sol : String × Int → Nat)
  | feasible (sol : String × Int → Nat)
  | infeasible
  | model_invalid
  | unknown
  | other

/-- `teachers_map = {t['id']: t['name'] for t in teachers_data}` followed by
`teachers_map.get(teacher_id, f"Unknown Teacher ID: {teacher_id}")`
(TT.py lines 250 and 299); a duplicated id would keep the last binding,
hence the reversed search. -/
def teacherName (roster : List Teacher) (i : Nat) : String :=
  match roster.reverse.find? (fun t => t.id == i) with
  | some t => t.name
  | none => "Unknown Teacher ID: " ++ toString i

/-- `len(set(teacher_ids))` (TT.py lines 267 and 275). -/
def distinctTeacherCount (roster : List Teacher) : Nat :=
  (roster.map (·.id)).dedup.length

def msgNoTeachers : String :=
  "No teachers registered. Please add teachers to generate a timetable."

def msgNotEnoughForClasses : String :=
  "Not enough unique teachers to assign a different teacher to each class for every period."

def msgNotEnoughForPeriods (class_name : String) : String :=
  "Not enough unique teachers for class '" ++ class_name ++
    "' to have a different teacher for each period."

def msgInfeasible : String :=
  "The current set of teachers and classes makes it impossible to generate a timetable that satisfies all constraints. Please check the number of teachers or simplify constraints."

def msgModelInvalid : String :=
  "The timetable model itself is invalid. This indicates an issue with constraint formulation."

def msgUnknown : String :=
  "The solver could not determine a solution within the given time limit. Try increasing the time limit or simplifying the problem."

def msgOther : String :=
  "An unexpected error occurred during timetable generation."

def msgSuccess : String := "Timetable generated successfully!"

/-- The 20 rows inserted on the success path (TT.py lines 295-303), in
insertion order. -/
def solutionRows (roster : List Teacher) (sol : String × Int → Nat) : List Row :=
  slotKeys.map (fun k => ⟨k.1, k.2, teacherName roster (sol k)⟩)

/-- The JSON `timetable` dictionary returned on success: class name to its
five teacher names in period order (TT.py lines 295-300). -/
def solutionDisplay (roster : List Teacher) (sol : String × Int → Nat) :
    List (String × List String) :=
  classes.map (fun c => (c, periods.map (fun p => teacherName roster (sol (c, p)))))

/-- Result of one call to the generation endpoint: the JSON response
(error message with HTTP status, or display grid with success message)
together with an execution trace — whether the decision variables were
created, how many all-different constraints of each family were added,
whether the solver ran, whether `DELETE FROM timetable` ran — and the
final contents of the `timetable` table. -/
structure GenResult where
  resp : Except (String × Nat) (List (String × List String) × String)
  varsCreated : Bool
  perPeriodConstraints : Nat
  perClassConstraints : Nat
  solverInvoked : Bool
  dbDeleted : Bool
  db : List Row

/-- TT.py lines 230-320, `generate_timetable_process`, over the current
roster, an abstract solver, and the prior contents of the timetable table.
Control flow mirrors the handler: empty-roster check (line 247), variable
creation (lines 258-261), the per-period distinct-count check that fails on
the first loop iteration before any constraint is added (lines 265-270),
the per-class check that fails on the first class `'MCA I'` after all five
per-period constraints were added (lines 273-278), solving (line 285), and
either delete-then-insert persistence (lines 287-308) or the four-way
failure classification (lines 309-320). -/
def generate_timetable_process (roster : List Teacher)
    (solve : CpModelE → SolveStatus) (db0 : List Row) : GenResult :=
  if roster.isEmpty then
    { resp := .error (msgNoTeachers, 400), varsCreated := false
      perPeriodConstraints := 0, perClassConstraints := 0
      solverInvoked := false, dbDeleted := false, db := db0 }
  else if distinctTeacherCount roster < classes.length then
    { resp := .error (msgNotEnoughForClasses, 400), varsCreated := true
      perPeriodConstraints := 0, perClassConstraints := 0
      solverInvoked := false, dbDeleted := false, db := db0 }
  else if distinctTeacherCount roster < periods.length then
    { resp := .error (msgNotEnoughForPeriods "MCA I", 400), varsCreated := true
      perPeriodConstraints := periods.length, perClassConstraints := 0
      solverInvoked := false, dbDeleted := false, db := db0 }
  else
    match solve (buildModel roster) with
    | .optimal sol =>
        { resp := .ok (solutionDisplay roster sol, msgSuccess), varsCreated := true
          perPeriodConstraints := periods.length, perClassConstraints := classes.length
          solverInvoked := true, dbDeleted := true, db := solutionRows roster sol }
    | .feasible sol =>
        { resp := .ok (solutionDisplay roster sol, msgSuccess), varsCreated := true
          perPeriodConstraints := periods.length, perClassConstraints := classes.length
          solverInvoked := true, dbDeleted := true, db := solutionRows roster sol }
    | .infeasible =>
        { resp := .error (msgInfeasible, 500), varsCreated := true
          perPeriodConstraints := periods.length, perClassConstraints := classes.length
          solverInvoked := true, dbDeleted := false, db := db0 }
    | .model_invalid =>
        { resp := .error (msgModelInvalid, 500), varsCreated := true
          perPeriodConstraints := periods.length, perClassConstraints := classes.length
          solverInvoked := true, dbDeleted := false, db := db0 }
    | .unknown =>
        { resp := .error (msgUnknown, 500), varsCreated := true
          perPeriodConstraints := periods.length, perClassConstraints := classes.length
          solverInvoked := true, dbDeleted := false, db := db0 }
    | .other =>
        { resp := .error (msgOther, 500), varsCreated := true
          perPeriodConstraints := periods.length, perClassConstraints := classes.length
          solverInvoked := true, dbDeleted := false, db := db0 }

/-- Outcome of the login route: render the login page (with an optional
error message) or set `session['user']` and redirect to the dashboard. -/
inductive LoginOutcome where
  | page (error : Option String)
  | redirectDashboard (sessionUser : String)
deriving DecidableEq, Repr

def msgMissingCreds : String := "Username and password are required."

def msgInvalidCreds : String := "Invalid Credentials."

/-- TT.py lines 74-98, the POST branch of `login`, over an abstract
`check_password_hash`, the `users` table as (username, stored hash) pairs,
and the submitted form fields (a missing field arrives as `""`, matching
Python's falsiness test on line 80).  The lookup mirrors
`SELECT password FROM users WHERE username = ?` with `fetchone()`. -/
def login (check_password_hash : String → String → Bool)
    (users : List (String × String)) (username password : String) : LoginOutcome :=
  if username == "" || password == "" then
    .page (some msgMissingCreds)
  else
    match users.find? (fun u => u.1 == username) with
    | some u =>
        if check_password_hash u.2 password then .redirectDashboard username
        else .page (some msgInvalidCreds)
    | none => .page (some msgInvalidCreds)

/-- Outcome of the add-teacher branch of `modify_teacher`: the resulting
`teachers` table plus the rendered success / error messages. -/
structure ModifyOutcome where
  teachers : List Teacher
  success_message : Option String
  error_message : Option String
deriving DecidableEq, Repr

def msgTeacherRequired : String := "Teacher name and subject are required."

def msgAlreadyExists (name : String) : String :=
  "Teacher '" ++ name ++ "' already exists."

def msgAdded (name : String) : String :=
  "Teacher '" ++ name ++ "' added successfully!"

def msgDbError (e : String) : String := "Error adding teacher: " ++ e

/-- Python's `str.strip()`: remove leading and trailing whitespace. -/
def pyStrip (s : String) : String :=
  ⟨((s.data.dropWhile Char.isWhitespace).reverse.dropWhile Char.isWhitespace).reverse⟩

/-- `AUTOINCREMENT` id for the next insert. -/
def nextTeacherId (ts : List Teacher) : Nat := listMax (ts.map (·.id)) + 1

/-- TT.py lines 147-162, the add-teacher branch of `modify_teacher`: trim
both fields, reject empties, insert, where inserting a name already in the
`UNIQUE` column raises `sqlite3.IntegrityError` and yields the
already-exists message with no change to the table. -/
def add_teacher (ts : List Teacher) (rawName rawSubject : String) : ModifyOutcome :=
  let name := pyStrip rawName
  let subject := pyStrip rawSubject
  if name == "" || subject == "" then
    { teachers := ts, success_message := none, error_message := some msgTeacherRequired }
  else if ts.any (fun t => t.name == name) then
    { teachers := ts, success_message := none, error_message := some (msgAlreadyExists name) }
  else
    { teachers := ts ++ [⟨nextTeacherId ts, name, subject⟩]
      success_message := some (msgAdded name), error_message := none }

/-- Lexicographic strict order on character lists (SQLite's binary
collation at the character level). -/
def charListLt : List Char → List Char → Bool
  | [], [] => false
  | [], _ :: _ => true
  | _ :: _, [] => false
  | a :: as, b :: bs =>
      if a < b then true else if b < a then false else charListLt as bs

/-- Strict text order used by `ORDER BY` on a TEXT column. -/
def strLt (a b : String) : Bool := charListLt a.data b.data

/-- `ORDER BY class_name, slot` comparison (ascending text order on the
class name, then ascending slot). -/
def rowLe (r1 r2 : Row) : Bool :=
  strLt r1.class_name r2.class_name ||
    (r1.class_name == r2.class_name && r1.slot ≤ r2.slot)

/-- The rows as delivered by
`SELECT ... FROM timetable ORDER BY class_name, slot` (a stable ascending
sort on the class name, then the slot). -/
def sortRows (rows : List Row) : List Row :=
  rows.insertionSort (fun a b => rowLe a b = true)

theorem sortRows_perm (rows : List Row) : (sortRows rows).Perm rows :=
  List.perm_insertionSort _ rows

/-- `[None] * 5` (TT.py line 217). -/
def initSlots : List (Option String) := [none, none, none, none, none]

/-- The grid is the Python dict `last_generated_timetable_data` as an
association list in insertion order; this reads class `c`, period index
`i` (0-based) from it. -/
def gridGet (g : List (String × List (Option String))) (c : String) (i : Nat) :
    Option String :=
  match g.find? (fun p => p.1 == c) with
  | some p => p.2.getD i none
  | none => none

/-- The warning printed for an out-of-range slot (TT.py line 223). -/
def warnMsg (r : Row) : String :=
  "Warning: Unexpected slot number " ++ toString r.slot ++ " for class " ++
    r.class_name

/-- Dict initialization of TT.py lines 215-217: if the class has not been
seen yet, append an entry of five `None`s. -/
def viewInit (g : List (String × List (Option String))) (r : Row) :
    List (String × List (Option String)) :=
  if g.any (fun p => p.1 == r.class_name) then g
  else g ++ [(r.class_name, initSlots)]

/-- Processing of one fetched row (TT.py lines 210-223): initialize the
class entry to five `None`s if absent, then either place the teacher name
at index `slot - 1` when `1 <= slot <= 5` or log a warning and skip. -/
def viewStep (st : List (String × List (Option String)) × List String) (r : Row) :
    List (String × List (Option String)) × List String :=
  if 1 ≤ r.slot ∧ r.slot ≤ 5 then
    ((viewInit st.1 r).map (fun p =>
        if p.1 == r.class_name then (p.1, p.2.set (r.slot - 1).toNat (some r.teacher_name))
        else p),
      st.2)
  else
    (viewInit st.1 r, st.2 ++ [warnMsg r])

/-- TT.py lines 192-227, `view_generate_timetable_page`: fetch the rows
ordered by class then slot and fold them into the per-class grid, returning
the grid and the printed warnings. -/
def view_generate_timetable_page (rows : List Row) :
    List (String × List (Option String)) × List String :=
  (sortRows rows).foldl viewStep ([], [])

/-- Outcome of the export route: the plain-text error with its HTTP status,
or the written spreadsheet (filename, header row, pivoted body) with the
confirmation text. -/
inductive ExportResult where
  | failure (msg : String) (status : Nat)
  | file (filename : String) (header : List String)
      (table : List (String × List (Option String))) (msg : String)
deriving DecidableEq, Repr

/-- The distinct class names of the fetched (sorted) rows — the pivot
index, ascending. -/
def pivotClasses (rows : List Row) : List String :=
  ((sortRows rows).map (·.class_name)).dedup

/-- The distinct slot values of the fetched (sorted) rows — the pivot
columns, ascending. -/
def pivotSlots (rows : List Row) : List Int :=
  ((sortRows rows).map (·.slot)).dedup

/-- `df.pivot_table(index='class_name', columns='slot',
values='teacher_name', aggfunc='first')` over the `ORDER BY class_name,
slot` dataframe: one row per distinct class, one cell per distinct slot,
each cell the first matching row's teacher name (absent combinations are
NaN, here `none`). -/
def pivot_table (rows : List Row) : List (String × List (Option String)) :=
  (pivotClasses rows).map (fun c =>
    (c, (pivotSlots rows).map (fun s =>
      ((sortRows rows).find? (fun r => r.class_name == c && r.slot == s)).map
        (·.teacher_name))))

/-- TT.py lines 384-412, `export_timetable`: an empty dataframe returns
"No timetable data to export." with status 404 and writes nothing;
otherwise the pivoted table is written to `timetable.xlsx` with columns
renamed `Class`, `Period <slot>`. -/
def export_timetable (rows : List Row) : ExportResult :=
  if rows.isEmpty then
    .failure "No timetable data to export." 404
  else
    .file "timetable.xlsx"
      ("Class" :: (pivotSlots rows).map (fun s => "Period " ++ toString s))
      (pivot_table rows)
      "Timetable exported successfully to timetable.xlsx!"

/-! ## Helper lemmas -/

theorem find?_const_bounds (k : String × Int) (lo hi : Nat) (l : List (String × Int))
    (hk : k ∈ l) :
    (l.map (fun x => (x, lo, hi))).find? (fun e => e.1 == k) = some (k, lo, hi) := by
  induction l with
  | nil => cases hk
  | cons x l ih =>
    simp only [List.map_cons, List.find?_cons]
    by_cases hx : x = k
    · subst hx; simp
    · have hb : ((x, lo, hi).1 == k) = false := by simpa using hx
      rw [hb]
      exact ih (by
        rcases List.mem_cons.mp hk with h | h
        · exact absurd h.symm hx
        · exact h)

theorem distinctTeacherCount_pos {roster : List Teacher}
    (h : 0 < distinctTeacherCount roster) : roster.isEmpty = false := by
  cases roster with
  | nil => simp [distinctTeacherCount] at h
  | cons t ts => rfl

/-! ## Claim theorems for the generation endpoint -/

/-- A solver stub used on paths where the solver result is irrelevant. -/
def sOther : CpModelE → SolveStatus := fun _ => SolveStatus.other

/-- C10: with an empty teacher roster, `generate_timetable_process` returns
the distinct "No teachers registered" error with status 400, creates no
solver variables (so `min`/`max` over the empty id list is never
evaluated), never invokes the solver, and leaves the timetable table
unchanged. -/
theorem claim10_empty_roster_rejected_before_vars
    (solve : CpModelE → SolveStatus) (db0 : List Row) :
    generate_timetable_process [] solve db0 =
      { resp := .error (msgNoTeachers, 400), varsCreated := false
        perPeriodConstraints := 0, perClassConstraints := 0
        solverInvoked := false, dbDeleted := false, db := db0 } := rfl

/-- A roster of five distinct teachers whose ids 1, 2, 3, 4, 6 have a gap
at 5 (teacher 5 was deleted). -/
def rosterGap : List Teacher :=
  [⟨1, "Alice", "Math"⟩, ⟨2, "Bob", "Physics"⟩, ⟨3, "Carol", "Chemistry"⟩,
    ⟨4, "Dan", "Biology"⟩, ⟨6, "Eve", "English"⟩]

/-- C2 counterexample: in the model the endpoint builds for `rosterGap`,
the deleted id 5 lies inside the domain of the ("MCA I", period 1)
decision variable even though 5 is not a current teacher id, because
`NewIntVar(min(teacher_ids), max(teacher_ids), ...)` yields the whole
integer interval.  This refutes the claim that the domain is exactly the
roster id set. -/
theorem claim2_counterexample :
    inDomain (buildModel rosterGap) ("MCA I", 1) 5 = true ∧
      5 ∉ rosterGap.map (·.id) := by decide

/-- C2 (amended): in the model built by the generation endpoint (nonempty
roster), every (class, period) decision variable's domain is exactly the
integer interval from the minimum to the maximum current teacher id — so
an id of a previously deleted teacher lying between them is also
assignable. -/
theorem claim2_domain_is_interval (roster : List Teacher) (k : String × Int)
    (v : Nat) (h : roster ≠ []) (hk : k ∈ slotKeys) :
    inDomain (buildModel roster) k v = true ↔
      listMin (roster.map (·.id)) ≤ v ∧ v ≤ listMax (roster.map (·.id)) := by
  unfold inDomain buildModel
  simp only
  rw [find?_const_bounds k _ _ slotKeys hk]
  simp

/-- C2 witness: the amended domain description evaluated on `rosterGap`
at the first slot. -/
theorem claim2_domain_is_interval_witness :
    inDomain (buildModel rosterGap) ("MCA I", 1) 5 = true ↔
      listMin (rosterGap.map (·.id)) ≤ 5 ∧ 5 ≤ listMax (rosterGap.map (·.id)) :=
  claim2_domain_is_interval rosterGap ("MCA I", 1) 5 (by decide) (by decide)

/-- A roster of three distinct teachers (fewer than the four classes). -/
def rosterThree : List Teacher :=
  [⟨1, "Alice", "Math"⟩, ⟨2, "Bob", "Physics"⟩, ⟨3, "Carol", "Chemistry"⟩]

/-- C3 counterexample: with three distinct teachers the endpoint does
reject with status 400, but only after the model and its 20 decision
variables have been created (`varsCreated = true`), contradicting the
claim that rejection happens before ever building the constraint model. -/
theorem claim3_counterexample :
    (generate_timetable_process rosterThree sOther []).resp =
        .error (msgNotEnoughForClasses, 400) ∧
      (generate_timetable_process rosterThree sOther []).varsCreated = true :=
  ⟨rfl, rfl⟩

/-- C3 (amended): for every nonempty roster with fewer than five distinct
teacher ids, the generation endpoint rejects with a descriptive
infeasibility message and status 400 — the per-period message when the
count is below four, otherwise the per-class message — after creating the
decision variables but before the solver is invoked, and no timetable
rows are written. -/
theorem claim3_reject_before_solver (roster : List Teacher)
    (solve : CpModelE → SolveStatus) (db0 : List Row)
    (h0 : roster ≠ []) (h5 : distinctTeacherCount roster < 5) :
    (generate_timetable_process roster solve db0).resp =
        .error ((if distinctTeacherCount roster < 4 then msgNotEnoughForClasses
          else msgNotEnoughForPeriods "MCA I"), 400) ∧
      (generate_timetable_process roster solve db0).varsCreated = true ∧
      (generate_timetable_process roster solve db0).solverInvoked = false ∧
      (generate_timetable_process roster solve db0).dbDeleted = false ∧
      (generate_timetable_process roster solve db0).db = db0 := by
  have hne : roster.isEmpty = false := by
    cases roster with
    | nil => exact absurd rfl h0
    | cons t ts => rfl
  have hcl : classes.length = 4 := rfl
  have hpl : periods.length = 5 := rfl
  unfold generate_timetable_process
  rw [hne, hcl, hpl]
  by_cases h4 : distinctTeacherCount roster < 4
  · rw [if_pos h4, if_pos h4]
    simp
  · rw [if_neg h4, if_neg h4, if_pos h5]
    simp

/-- A roster of four distinct teachers (enough for the classes, not for
the periods). -/
def rosterFour : List Teacher :=
  [⟨1, "Alice", "Math"⟩, ⟨2, "Bob", "Physics"⟩, ⟨3, "Carol", "Chemistry"⟩,
    ⟨4, "Dan", "Biology"⟩]

/-- C3 witness: the amended rejection behaviour evaluated on the
four-teacher roster (per-class message, solver never invoked, table kept). -/
theorem claim3_reject_before_solver_witness :
    (generate_timetable_process rosterFour sOther [⟨"MCA I", 1, "Old"⟩]).resp =
        .error ((if distinctTeacherCount rosterFour < 4 then msgNotEnoughForClasses
          else msgNotEnoughForPeriods "MCA I"), 400) ∧
      (generate_timetable_process rosterFour sOther [⟨"MCA I", 1, "Old"⟩]).varsCreated = true ∧
      (generate_timetable_process rosterFour sOther [⟨"MCA I", 1, "Old"⟩]).solverInvoked = false ∧
      (generate_timetable_process rosterFour sOther [⟨"MCA I", 1, "Old"⟩]).dbDeleted = false ∧
      (generate_timetable_process rosterFour sOther [⟨"MCA I", 1, "Old"⟩]).db =
        [⟨"MCA I", 1, "Old"⟩] :=
  claim3_reject_before_solver rosterFour sOther [⟨"MCA I", 1, "Old"⟩]
    (by decide) (by decide)

/-- The four-way failure classification of TT.py lines 311-318. -/
def failureMsg : SolveStatus → String
  | .infeasible => msgInfeasible
  | .model_invalid => msgModelInvalid
  | .unknown => msgUnknown
  | _ => msgOther

/-- C5: when the solver status is neither optimal nor feasible, the
endpoint answers with status 500 and the message of the four-way
classification — the four messages being pairwise distinct — and the
stored timetable is untouched: no delete and no insert happens. -/
theorem claim5_failure_classified_no_writes (roster : List Teacher)
    (solve : CpModelE → SolveStatus) (db0 : List Row)
    (h5 : 5 ≤ distinctTeacherCount roster)
    (hf : solve (buildModel roster) = .infeasible ∨
      solve (buildModel roster) = .model_invalid ∨
      solve (buildModel roster) = .unknown ∨
      solve (buildModel roster) = .other) :
    (generate_timetable_process roster solve db0).resp =
        .error (failureMsg (solve (buildModel roster)), 500) ∧
      (generate_timetable_process roster solve db0).dbDeleted = false ∧
      (generate_timetable_process roster solve db0).db = db0 ∧
      [msgInfeasible, msgModelInvalid, msgUnknown, msgOther].Nodup := by
  have hne : roster.isEmpty = false := distinctTeacherCount_pos (by omega)
  have hcl : classes.length = 4 := rfl
  have hpl : periods.length = 5 := rfl
  have h4 : ¬ distinctTeacherCount roster < 4 := by omega
  have h5' : ¬ distinctTeacherCount roster < 5 := by omega
  unfold generate_timetable_process
  rw [hne, hcl, hpl, if_neg h4, if_neg h5']
  rcases hf with h | h | h | h <;> rw [h] <;>
    exact ⟨rfl, rfl, rfl, by decide⟩

/-- A roster of five distinct teachers with contiguous ids 1..5. -/
def rosterFive : List Teacher :=
  [⟨1, "Alice", "Math"⟩, ⟨2, "Bob", "Physics"⟩, ⟨3, "Carol", "Chemistry"⟩,
    ⟨4, "Dan", "Biology"⟩, ⟨5, "Eve", "English"⟩]

/-- A solver stub reporting a timeout. -/
def sUnknown : CpModelE → SolveStatus := fun _ => SolveStatus.unknown

/-- C5 witness: the failure classification evaluated with five teachers and
a timing-out solver: timeout message, status 500, table kept. -/
theorem claim5_failure_classified_no_writes_witness :
    (generate_timetable_process rosterFive sUnknown [⟨"MCA I", 1, "Old"⟩]).resp =
        .error (failureMsg (sUnknown (buildModel rosterFive)), 500) ∧
      (generate_timetable_process rosterFive sUnknown [⟨"MCA I", 1, "Old"⟩]).dbDeleted = false ∧
      (generate_timetable_process rosterFive sUnknown [⟨"MCA I", 1, "Old"⟩]).db =
        [⟨"MCA I", 1, "Old"⟩] ∧
      [msgInfeasible, msgModelInvalid, msgUnknown, msgOther].Nodup :=
  claim5_failure_classified_no_writes rosterFive sUnknown [⟨"MCA I", 1, "Old"⟩]
    (by decide) (Or.inr (Or.inr (Or.inl rfl)))

theorem allDiffs_holds_of_satisfies {m : CpModelE} {sol : String × Int → Nat}
    (hsat : satisfiesB m sol = true) :
    ∀ ks ∈ m.allDiffs, (ks.map sol).Nodup := by
  intro ks hks
  simp only [satisfiesB, Bool.and_eq_true, List.all_eq_true, decide_eq_true_eq] at hsat
  exact hsat.2 ks hks

theorem solutionRows_keys (roster : List Teacher) (sol : String × Int → Nat) :
    (solutionRows roster sol).map (fun r => (r.class_name, r.slot)) = slotKeys := rfl

/-- The shape of `generate_timetable_process` once the three precondition
checks have passed: the outcome depends only on the solver status. -/
theorem gen_ne (roster : List Teacher) (solve : CpModelE → SolveStatus)
    (db0 : List Row) (hne : roster.isEmpty = false)
    (h4 : ¬ distinctTeacherCount roster < classes.length)
    (h5 : ¬ distinctTeacherCount roster < periods.length) :
    generate_timetable_process roster solve db0 =
      match solve (buildModel roster) with
      | .optimal sol =>
          ⟨.ok (solutionDisplay roster sol, msgSuccess), true, periods.length,
            classes.length, true, true, solutionRows roster sol⟩
      | .feasible sol =>
          ⟨.ok (solutionDisplay roster sol, msgSuccess), true, periods.length,
            classes.length, true, true, solutionRows roster sol⟩
      | .infeasible =>
          ⟨.error (msgInfeasible, 500), true, periods.length, classes.length,
            true, false, db0⟩
      | .model_invalid =>
          ⟨.error (msgModelInvalid, 500), true, periods.length, classes.length,
            true, false, db0⟩
      | .unknown =>
          ⟨.error (msgUnknown, 500), true, periods.length, classes.length,
            true, false, db0⟩
      | .other =>
          ⟨.error (msgOther, 500), true, periods.length, classes.length,
            true, false, db0⟩ := by
  unfold generate_timetable_process
  rw [hne, if_neg Bool.false_ne_true, if_neg h4, if_neg h5]

/-- C1: with at least five distinct teacher ids and a solver that returns
an optimal or feasible assignment satisfying the built model, the endpoint
succeeds; the saved timetable has exactly one entry per (class, period)
slot key — 20 pairwise distinct keys — and the assigned teacher ids are
pairwise distinct across the four classes within every period and pairwise
distinct across the five periods within every class. -/
theorem claim1_generation_distinct (roster : List Teacher)
    (solve : CpModelE → SolveStatus) (db0 : List Row) (sol : String × Int → Nat)
    (h5 : 5 ≤ distinctTeacherCount roster)
    (hs : solve (buildModel roster) = .optimal sol ∨
      solve (buildModel roster) = .feasible sol)
    (hsat : satisfiesB (buildModel roster) sol = true) :
    (generate_timetable_process roster solve db0).resp =
        .ok (solutionDisplay roster sol, msgSuccess) ∧
      (generate_timetable_process roster solve db0).db = solutionRows roster sol ∧
      (solutionRows roster sol).map (fun r => (r.class_name, r.slot)) = slotKeys ∧
      slotKeys.Nodup ∧ slotKeys.length = 20 ∧
      (∀ p ∈ periods, (classes.map (fun c => sol (c, p))).Nodup) ∧
      (∀ c ∈ classes, (periods.map (fun p => sol (c, p))).Nodup) := by
  have hne : roster.isEmpty = false := distinctTeacherCount_pos (by omega)
  have hcl : classes.length = 4 := rfl
  have hpl : periods.length = 5 := rfl
  have h4 : ¬ distinctTeacherCount roster < classes.length := by rw [hcl]; omega
  have h5' : ¬ distinctTeacherCount roster < periods.length := by rw [hpl]; omega
  have hAll := allDiffs_holds_of_satisfies hsat
  have hperiod : ∀ p ∈ periods, (classes.map (fun c => sol (c, p))).Nodup := by
    intro p hp
    have hmem : (classes.map (fun c => (c, p))) ∈ (buildModel roster).allDiffs := by
      simp only [buildModel]
      exact List.mem_append_left _ (List.mem_map.mpr ⟨p, hp, rfl⟩)
    have := hAll _ hmem
    rwa [List.map_map] at this
  have hclass : ∀ c ∈ classes, (periods.map (fun p => sol (c, p))).Nodup := by
    intro c hc
    have hmem : (periods.map (fun p => (c, p))) ∈ (buildModel roster).allDiffs := by
      simp only [buildModel]
      exact List.mem_append_right _ (List.mem_map.mpr ⟨c, hc, rfl⟩)
    have := hAll _ hmem
    rwa [List.map_map] at this
  refine ⟨?_, ?_, solutionRows_keys roster sol, by decide, by decide, hperiod, hclass⟩ <;>
  · rw [gen_ne roster solve db0 hne h4 h5']
    rcases hs with h | h <;> rw [h]

/-- Class index used by the concrete witness assignment. -/
def classIndex : String → Nat
  | "MCA II" => 1
  | "MSC I" => 2
  | "MSC II" => 3
  | _ => 0

/-- A concrete conflict-free assignment over ids 1..5: class `c`, period
`p` gets teacher `((classIndex c + p) % 5) + 1`. -/
def solGood : String × Int → Nat :=
  fun k => ((classIndex k.1 + k.2.toNat) % 5) + 1

/-- A solver stub that reports `solGood` as a feasible solution. -/
def sGood : CpModelE → SolveStatus := fun _ => SolveStatus.feasible solGood

/-- C1 witness: the success behaviour evaluated on the five-teacher roster
with the concrete feasible solver. -/
theorem claim1_generation_distinct_witness :
    (generate_timetable_process rosterFive sGood []).resp =
        .ok (solutionDisplay rosterFive solGood, msgSuccess) ∧
      (generate_timetable_process rosterFive sGood []).db =
        solutionRows rosterFive solGood ∧
      (solutionRows rosterFive solGood).map (fun r => (r.class_name, r.slot)) = slotKeys ∧
      slotKeys.Nodup ∧ slotKeys.length = 20 ∧
      (∀ p ∈ periods, (classes.map (fun c => solGood (c, p))).Nodup) ∧
      (∀ c ∈ classes, (periods.map (fun p => solGood (c, p))).Nodup) :=
  claim1_generation_distinct rosterFive sGood [] solGood (by decide)
    (Or.inr rfl) (by decide)

theorem gen_success_record (roster : List Teacher)
    (solve : CpModelE → SolveStatus) (db0 : List Row)
    (out : List (String × List String) × String)
    (h : (generate_timetable_process roster solve db0).resp = .ok out) :
    ∃ sol, (solve (buildModel roster) = .optimal sol ∨
        solve (buildModel roster) = .feasible sol) ∧
      ∀ dbB, generate_timetable_process roster solve dbB =
        { resp := .ok (solutionDisplay roster sol, msgSuccess), varsCreated := true
          perPeriodConstraints := periods.length
          perClassConstraints := classes.length
          solverInvoked := true, dbDeleted := true, db := solutionRows roster sol } := by
  by_cases hne : roster.isEmpty = true
  · unfold generate_timetable_process at h
    rw [if_pos hne] at h
    exact absurd h (by simp)
  · have hneF : roster.isEmpty = false := by simpa using hne
    by_cases h4 : distinctTeacherCount roster < classes.length
    · unfold generate_timetable_process at h
      rw [hneF, if_neg Bool.false_ne_true, if_pos h4] at h
      exact absurd h (by simp)
    · by_cases hp : distinctTeacherCount roster < periods.length
      · unfold generate_timetable_process at h
        rw [hneF, if_neg Bool.false_ne_true, if_neg h4, if_pos hp] at h
        exact absurd h (by simp)
      · rw [gen_ne roster solve db0 hneF h4 hp] at h
        cases hsolve : solve (buildModel roster) with
        | optimal sol =>
          exact ⟨sol, Or.inl rfl, fun dbB => by
            rw [gen_ne roster solve dbB hneF h4 hp, hsolve]⟩
        | feasible sol =>
          exact ⟨sol, Or.inr rfl, fun dbB => by
            rw [gen_ne roster solve dbB hneF h4 hp, hsolve]⟩
        | infeasible => rw [hsolve] at h; exact absurd h (by simp)
        | model_invalid => rw [hsolve] at h; exact absurd h (by simp)
        | unknown => rw [hsolve] at h; exact absurd h (by simp)
        | other => rw [hsolve] at h; exact absurd h (by simp)

/-- C4: a successful generation replaces the stored schedule wholesale;
after two successive successful generations, the stored table is exactly
what the second generation alone would store (independent of the prior
contents), with exactly one entry for each of the 20 slot keys. -/
theorem claim4_regeneration_replaces (r1 : List Teacher)
    (s1 : CpModelE → SolveStatus) (db0 : List Row) (r2 : List Teacher)
    (s2 : CpModelE → SolveStatus)
    (out1 out2 : List (String × List String) × String)
    (h1 : (generate_timetable_process r1 s1 db0).resp = .ok out1)
    (h2 : (generate_timetable_process r2 s2
      ((generate_timetable_process r1 s1 db0).db)).resp = .ok out2) :
    (generate_timetable_process r2 s2
        ((generate_timetable_process r1 s1 db0).db)).dbDeleted = true ∧
      (generate_timetable_process r2 s2
        ((generate_timetable_process r1 s1 db0).db)).db =
        (generate_timetable_process r2 s2 []).db ∧
      ((generate_timetable_process r2 s2
        ((generate_timetable_process r1 s1 db0).db)).db).map
          (fun r => (r.class_name, r.slot)) = slotKeys ∧
      slotKeys.Nodup ∧ slotKeys.length = 20 := by
  obtain ⟨sol2, _, hrec⟩ := gen_success_record r2 s2 _ out2 h2
  rw [hrec _, hrec []]
  exact ⟨rfl, rfl, solutionRows_keys r2 sol2, by decide, by decide⟩

/-- C4 witness: two successive successful generations with distinct rosters;
the final table is the second run's, one row per slot key. -/
theorem claim4_regeneration_replaces_witness :
    (generate_timetable_process rosterGap sGood
        ((generate_timetable_process rosterFive sGood []).db)).dbDeleted = true ∧
      (generate_timetable_process rosterGap sGood
        ((generate_timetable_process rosterFive sGood []).db)).db =
        (generate_timetable_process rosterGap sGood []).db ∧
      ((generate_timetable_process rosterGap sGood
        ((generate_timetable_process rosterFive sGood []).db)).db).map
          (fun r => (r.class_name, r.slot)) = slotKeys ∧
      slotKeys.Nodup ∧ slotKeys.length = 20 :=
  claim4_regeneration_replaces rosterFive sGood [] rosterGap sGood
    (solutionDisplay rosterFive solGood, msgSuccess)
    (solutionDisplay rosterGap solGood, msgSuccess) rfl rfl

/-! ## Login claims -/

/-- A password verifier that accepts nothing, for concrete counterexamples. -/
def verifyNever : String → String → Bool := fun _ _ => false

/-- C6 counterexample: a login attempt with a missing username is answered
with "Username and password are required.", which differs from the
"Invalid Credentials." message used for an unknown username — so the three
failure conditions are not all surfaced as one and the same message. -/
theorem claim6_counterexample :
    login verifyNever [] "" "secret" = .page (some msgMissingCreds) ∧
      login verifyNever [] "bob" "secret" = .page (some msgInvalidCreds) ∧
      msgMissingCreds ≠ msgInvalidCreds := by decide

/-- C6 (amended): missing fields are rejected with the dedicated
"Username and password are required." message; an unknown username and a
wrong password are surfaced identically as the generic
"Invalid Credentials." message (not revealing which of the two failed);
and a stored hash accepted by the verifier establishes a session keyed by
the submitted username. -/
theorem claim6_login_behaviour (verify : String → String → Bool)
    (users : List (String × String)) (username password : String) :
    (username = "" ∨ password = "" →
      login verify users username password = .page (some msgMissingCreds)) ∧
    (username ≠ "" → password ≠ "" →
      users.find? (fun u => u.1 == username) = none →
      login verify users username password = .page (some msgInvalidCreds)) ∧
    (∀ u, username ≠ "" → password ≠ "" →
      users.find? (fun v => v.1 == username) = some u →
      verify u.2 password = false →
      login verify users username password = .page (some msgInvalidCreds)) ∧
    (∀ u, username ≠ "" → password ≠ "" →
      users.find? (fun v => v.1 == username) = some u →
      verify u.2 password = true →
      login verify users username password = .redirectDashboard username) := by
  refine ⟨?_, ?_, ?_, ?_⟩
  · rintro (h | h) <;> simp [login, h]
  · intro h1 h2 hf
    simp [login, h1, h2, hf]
  · intro u h1 h2 hf hv
    simp [login, h1, h2, hf, hv]
  · intro u h1 h2 hf hv
    simp [login, h1, h2, hf, hv]

/-- The seeded users table with one admin entry, and a verifier standing
for `check_password_hash` that accepts exactly the password "admin"
against the stored hash "hash-admin". -/
def usersSeed : List (String × String) := [("admin", "hash-admin")]

/-- A concrete stand-in for `check_password_hash`. -/
def verifySeed : String → String → Bool :=
  fun h p => h == "hash-admin" && p == "admin"

/-- C6 witness: the four login behaviours evaluated on the seeded table. -/
theorem claim6_login_behaviour_witness :
    login verifySeed usersSeed "admin" "admin" = .redirectDashboard "admin" ∧
      login verifySeed usersSeed "admin" "wrong" = .page (some msgInvalidCreds) ∧
      login verifySeed usersSeed "ghost" "pw" = .page (some msgInvalidCreds) ∧
      login verifySeed usersSeed "" "pw" = .page (some msgMissingCreds) :=
  ⟨(claim6_login_behaviour verifySeed usersSeed "admin" "admin").2.2.2
      ("admin", "hash-admin") (by decide) (by decide) (by decide) (by decide),
    (claim6_login_behaviour verifySeed usersSeed "admin" "wrong").2.2.1
      ("admin", "hash-admin") (by decide) (by decide) (by decide) (by decide),
    (claim6_login_behaviour verifySeed usersSeed "ghost" "pw").2.1
      (by decide) (by decide) (by decide),
    (claim6_login_behaviour verifySeed usersSeed "" "pw").1 (Or.inl rfl)⟩

/-! ## Teacher roster claims -/

theorem msgAlreadyExists_head (n : String) :
    (msgAlreadyExists n).data.head? = some 'T' := rfl

theorem msgDbError_head (e : String) :
    (msgDbError e).data.head? = some 'E' := rfl

theorem msgAlreadyExists_ne_msgDbError (n e : String) :
    msgAlreadyExists n ≠ msgDbError e := by
  intro h
  have h2 : some 'T' = some 'E' := by
    rw [← msgAlreadyExists_head n, ← msgDbError_head e, h]
  exact absurd h2 (by decide)

/-- C7: adding a teacher whose trimmed name is already in the roster
(with nonempty trimmed name and subject) produces exactly the
duplicate-specific "already exists" message — which differs from every
generic "Error adding teacher: ..." database error message — no success
message, and the teachers table is unchanged. -/
theorem claim7_duplicate_add_rejected (ts : List Teacher)
    (rawName rawSubject : String)
    (hn : pyStrip rawName ≠ "") (hs : pyStrip rawSubject ≠ "")
    (hdup : pyStrip rawName ∈ ts.map (·.name)) :
    (add_teacher ts rawName rawSubject).error_message =
        some (msgAlreadyExists (pyStrip rawName)) ∧
      (add_teacher ts rawName rawSubject).success_message = none ∧
      (add_teacher ts rawName rawSubject).teachers = ts ∧
      ∀ e, msgAlreadyExists (pyStrip rawName) ≠ msgDbError e := by
  have hany : ts.any (fun t => t.name == pyStrip rawName) = true := by
    rw [List.any_eq_true]
    obtain ⟨t, ht, hname⟩ := List.mem_map.mp hdup
    exact ⟨t, ht, by simp [hname]⟩
  have heq : add_teacher ts rawName rawSubject =
      { teachers := ts, success_message := none
        error_message := some (msgAlreadyExists (pyStrip rawName)) } := by
    unfold add_teacher
    rw [if_neg (by simp [hn, hs]), if_pos hany]
  rw [heq]
  exact ⟨rfl, rfl, rfl, fun e => msgAlreadyExists_ne_msgDbError _ e⟩

/-- C7 witness: re-adding "Alice" (with surrounding whitespace) to a
roster that already contains her. -/
theorem claim7_duplicate_add_rejected_witness :
    (add_teacher rosterFive " Alice " "Algebra").error_message =
        some (msgAlreadyExists (pyStrip " Alice ")) ∧
      (add_teacher rosterFive " Alice " "Algebra").success_message = none ∧
      (add_teacher rosterFive " Alice " "Algebra").teachers = rosterFive ∧
      ∀ e, msgAlreadyExists (pyStrip " Alice ") ≠ msgDbError e :=
  claim7_duplicate_add_rejected rosterFive " Alice " "Algebra"
    (by decide) (by decide) (by decide)

/-! ## Export claims -/

/-- C9: exporting an empty timetable returns the "No timetable data to
export." failure with status 404 and writes no spreadsheet; exporting a
nonempty timetable writes `timetable.xlsx` containing the pivoted table —
exactly one row per distinct class of the data and one column (plus the
leading `Class` column) per distinct slot of the data. -/
theorem claim9_export (rows : List Row) :
    (rows = [] → export_timetable rows = .failure "No timetable data to export." 404) ∧
    (rows ≠ [] →
      export_timetable rows =
        .file "timetable.xlsx"
          ("Class" :: (pivotSlots rows).map (fun s => "Period " ++ toString s))
          (pivot_table rows)
          "Timetable exported successfully to timetable.xlsx!" ∧
      (pivot_table rows).map (·.1) = pivotClasses rows ∧
      (pivotClasses rows).Nodup ∧
      (∀ c, c ∈ pivotClasses rows ↔ c ∈ rows.map (·.class_name)) ∧
      (pivotSlots rows).Nodup ∧
      (∀ s, s ∈ pivotSlots rows ↔ s ∈ rows.map (·.slot)) ∧
      ∀ p ∈ pivot_table rows, p.2.length = (pivotSlots rows).length) := by
  constructor
  · intro h; subst h; rfl
  · intro h
    refine ⟨?_, ?_, List.nodup_dedup _, ?_, List.nodup_dedup _, ?_, ?_⟩
    · unfold export_timetable
      rw [if_neg (by simpa [List.isEmpty_iff] using h)]
    · unfold pivot_table
      rw [List.map_map]
      exact List.map_id (pivotClasses rows)
    · intro c
      unfold pivotClasses
      rw [List.mem_dedup]
      exact ((sortRows_perm rows).map (·.class_name)).mem_iff
    · intro s
      unfold pivotSlots
      rw [List.mem_dedup]
      exact ((sortRows_perm rows).map (·.slot)).mem_iff
    · intro p hp
      obtain ⟨c, _, rfl⟩ := List.mem_map.mp hp
      exact List.length_map _ _

/-- Concrete rows for the export witness: two classes, slots 1 and 2, in
scrambled order. -/
def rowsExport : List Row :=
  [⟨"MSC I", 2, "Bob"⟩, ⟨"MCA I", 1, "Alice"⟩, ⟨"MSC I", 1, "Carol"⟩]

/-- C9 witness: the export behaviour evaluated on the empty table and on
`rowsExport`. -/
theorem claim9_export_witness :
    export_timetable [] = .failure "No timetable data to export." 404 ∧
      (pivot_table rowsExport).map (·.1) = pivotClasses rowsExport ∧
      (pivotClasses rowsExport).Nodup ∧
      pivotClasses rowsExport = ["MCA I", "MSC I"] ∧
      pivotSlots rowsExport = [1, 2] ∧
      pivot_table rowsExport =
        [("MCA I", [some "Alice", none]), ("MSC I", [some "Carol", some "Bob"])] :=
  ⟨(claim9_export []).1 rfl,
    ((claim9_export rowsExport).2 (by decide)).2.1,
    ((claim9_export rowsExport).2 (by decide)).2.2.1,
    by decide, by decide, by decide⟩

/-! ## Viewer claims -/

/-- The warnings printed by the viewer: one per fetched row whose slot is
outside 1..5, in row order. -/
def warningsOf (l : List Row) : List String :=
  l.filterMap (fun r => if 1 ≤ r.slot ∧ r.slot ≤ 5 then none else some (warnMsg r))

/-- The teacher name the grid should show for class `c`, period index `i`
(0-based): the last processed row for `(c, i + 1)`. -/
def lastVal (l : List Row) (c : String) (i : Nat) : Option String :=
  ((l.filter (fun r => r.class_name == c && r.slot == (i : Int) + 1)).getLast?).map
    (·.teacher_name)

theorem initSlots_getD (i : Nat) : initSlots.getD i none = none := by
  rcases i with _ | _ | _ | _ | _ | i <;> rfl

theorem find?_map_set (g : List (String × List (Option String))) (cn : String)
    (j : Nat) (nm : String) (c : String) :
    (g.map (fun p => if p.1 == cn then (p.1, p.2.set j (some nm)) else p)).find?
        (fun p => p.1 == c) =
      (g.find? (fun p => p.1 == c)).map
        (fun p => if p.1 == cn then (p.1, p.2.set j (some nm)) else p) := by
  induction g with
  | nil => rfl
  | cons q g ih =>
    simp only [List.map_cons]
    have hfst : ((if q.1 == cn then (q.1, q.2.set j (some nm)) else q).1) = q.1 := by
      split <;> rfl
    by_cases hq : (q.1 == c) = true
    · rw [@List.find?_cons_of_pos (String × List (Option String))
          (fun p => p.1 == c) _ _ (by simpa only [hfst] using hq),
        @List.find?_cons_of_pos (String × List (Option String))
          (fun p => p.1 == c) _ _ hq]
      rfl
    · rw [@List.find?_cons_of_neg (String × List (Option String))
          (fun p => p.1 == c) _ _ (by simpa only [hfst] using hq),
        @List.find?_cons_of_neg (String × List (Option String))
          (fun p => p.1 == c) _ _ hq, ih]

theorem gridGet_update_of_found (g : List (String × List (Option String)))
    (cn nm : String) (j : Nat) (c : String) (i : Nat)
    (q : String × List (Option String))
    (hq : g.find? (fun p => p.1 == cn) = some q) (hqlen : q.2.length = 5)
    (hj : j < 5) :
    gridGet (g.map (fun p => if p.1 == cn then (p.1, p.2.set j (some nm)) else p)) c i =
      if c = cn ∧ i = j then some nm else gridGet g c i := by
  unfold gridGet
  rw [find?_map_set]
  by_cases hc : c = cn
  · subst hc
    have hq1 := List.find?_some hq
    by_cases hij : i = j
    · subst hij
      rw [if_pos ⟨rfl, rfl⟩]
      simp only [hq, Option.map_some']
      rw [if_pos hq1, List.getD_eq_getElem?_getD, List.getElem?_set,
        if_pos rfl, if_pos (by rw [hqlen]; exact hj)]
      rfl
    · rw [if_neg (by tauto)]
      simp only [hq, Option.map_some']
      rw [if_pos hq1, List.getD_eq_getElem?_getD,
        List.getD_eq_getElem?_getD, List.getElem?_set,
        if_neg (fun hh => hij hh.symm)]
  · rw [if_neg (by tauto)]
    cases hfc : g.find? (fun p => p.1 == c) with
    | none => rfl
    | some p =>
      have hp1 := List.find?_some hfc
      have hpc : p.1 = c := by simpa using hp1
      have hpcn : (p.1 == cn) = false := by
        rw [hpc]
        exact beq_eq_false_iff_ne.mpr hc
      simp only [Option.map_some', hpcn, Bool.false_eq_true, if_false]

theorem gridGet_append_new (g : List (String × List (Option String)))
    (cn c : String) (i : Nat)
    (hn : g.find? (fun p => p.1 == cn) = none) :
    gridGet (g ++ [(cn, initSlots)]) c i = gridGet g c i := by
  unfold gridGet
  rw [List.find?_append]
  by_cases hc : c = cn
  · subst hc
    rw [hn]
    simp only [Option.none_or]
    rw [List.find?_cons_of_pos _ (by simp)]
    exact initSlots_getD i
  · have hsing : ([((cn, initSlots) : String × List (Option String))].find?
        (fun p => p.1 == c)) = none := by
      rw [List.find?_cons_of_neg _ (by simpa using Ne.symm hc)]
      rfl
    rw [hsing, Option.or_none]

theorem view_fold_spec (l : List Row) :
    (∀ p ∈ (l.foldl viewStep ([], [])).1, p.2.length = 5) ∧
      (l.foldl viewStep ([], [])).2 = warningsOf l ∧
      ∀ c i, i < 5 →
        gridGet (l.foldl viewStep ([], [])).1 c i = lastVal l c i := by
  induction l using List.reverseRecOn with
  | nil =>
    refine ⟨by simp, rfl, fun c i _ => rfl⟩
  | append_singleton l r ih =>
    obtain ⟨ihlen, ihwarn, ihget⟩ := ih
    rw [List.foldl_append]
    simp only [List.foldl_cons, List.foldl_nil]
    set st := l.foldl viewStep ([], []) with hst
    have hg1len : ∀ p ∈ viewInit st.1 r, p.2.length = 5 := by
      unfold viewInit
      split
      · exact ihlen
      · intro p hp
        rcases List.mem_append.mp hp with h | h
        · exact ihlen p h
        · rcases List.mem_singleton.mp h with rfl
          rfl
    have hg1get : ∀ c i, gridGet (viewInit st.1 r) c i = gridGet st.1 c i := by
      intro c i
      unfold viewInit
      split
      case isTrue => rfl
      case isFalse hany =>
        have hnone : st.1.find? (fun p => p.1 == r.class_name) = none := by
          rw [List.find?_eq_none]
          intro x hx
          exact fun hpx => hany (List.any_eq_true.mpr ⟨x, hx, hpx⟩)
        exact gridGet_append_new st.1 r.class_name c i hnone
    have hg1found : ∃ q, (viewInit st.1 r).find? (fun p => p.1 == r.class_name) =
        some q ∧ q.2.length = 5 := by
      unfold viewInit
      split
      case isTrue hany =>
        obtain ⟨x, hx, hpx⟩ := List.any_eq_true.mp hany
        have hsome : (st.1.find? (fun p => p.1 == r.class_name)).isSome = true :=
          List.find?_isSome.mpr ⟨x, hx, hpx⟩
        obtain ⟨q, hq⟩ := Option.isSome_iff_exists.mp hsome
        exact ⟨q, hq, ihlen q (List.mem_of_find?_eq_some hq)⟩
      case isFalse hany =>
        have hnone : st.1.find? (fun p => p.1 == r.class_name) = none := by
          rw [List.find?_eq_none]
          intro x hx
          exact fun hpx => hany (List.any_eq_true.mpr ⟨x, hx, hpx⟩)
        refine ⟨(r.class_name, initSlots), ?_, rfl⟩
        rw [List.find?_append, hnone, Option.none_or,
          @List.find?_cons_of_pos (String × List (Option String))
            (fun p => p.1 == r.class_name) _ _ (by simp)]
    by_cases hrange : 1 ≤ r.slot ∧ r.slot ≤ 5
    · -- in-range row: placed at index slot - 1
      have hstep : viewStep st r =
          ((viewInit st.1 r).map (fun p =>
            if p.1 == r.class_name then
              (p.1, p.2.set (r.slot - 1).toNat (some r.teacher_name))
            else p), st.2) := by
        unfold viewStep
        rw [if_pos hrange]
      rw [hstep]
      obtain ⟨q, hq, hqlen⟩ := hg1found
      have hj : (r.slot - 1).toNat < 5 := by omega
      refine ⟨?_, ?_, ?_⟩
      · intro p hp
        obtain ⟨p0, hp0, rfl⟩ := List.mem_map.mp hp
        have := hg1len p0 hp0
        split
        · simpa [List.length_set] using this
        · exact this
      · rw [ihwarn]
        unfold warningsOf
        rw [List.filterMap_append]
        simp [hrange]
      · intro c i hi
        rw [gridGet_update_of_found (viewInit st.1 r) r.class_name
            r.teacher_name _ c i q hq hqlen hj,
          hg1get, ihget c i hi]
        unfold lastVal
        rw [List.filter_append]
        by_cases hcc : c = r.class_name ∧ i = (r.slot - 1).toNat
        · obtain ⟨rfl, hij⟩ := hcc
          have hmatch : (r.class_name == r.class_name &&
              r.slot == (i : Int) + 1) = true := by
            rw [Bool.and_eq_true, beq_iff_eq, beq_iff_eq]
            exact ⟨rfl, by omega⟩
          rw [if_pos ⟨rfl, hij⟩, List.filter_cons, if_pos hmatch]
          simp
        · have hnomatch : (r.class_name == c && r.slot == (i : Int) + 1) = false := by
            rw [Bool.and_eq_false_iff]
            by_cases hc : c = r.class_name
            · subst hc
              right
              rw [beq_eq_false_iff_ne]
              intro hslot
              exact hcc ⟨rfl, by omega⟩
            · left
              rw [beq_eq_false_iff_ne]
              exact fun hh => hc hh.symm
          rw [if_neg hcc, List.filter_cons, if_neg (by simp [hnomatch]),
            List.filter_nil, List.append_nil]
    · -- out-of-range row: warning logged, grid values untouched
      have hstep : viewStep st r = (viewInit st.1 r, st.2 ++ [warnMsg r]) := by
        unfold viewStep
        rw [if_neg hrange]
      rw [hstep]
      refine ⟨hg1len, ?_, ?_⟩
      · rw [ihwarn]
        unfold warningsOf
        rw [List.filterMap_append]
        simp [hrange]
      · intro c i hi
        rw [hg1get, ihget c i hi]
        unfold lastVal
        rw [List.filter_append, List.filter_cons,
          if_neg (by
            simp only [Bool.and_eq_true, beq_iff_eq]
            rintro ⟨-, hslot⟩
            exact hrange (by omega)), List.filter_nil, List.append_nil]

/-- C8: for every set of stored timetable rows, the viewer returns — it
never fails — a grid in which every class has exactly five period slots;
each row whose slot lies outside 1..5 contributes exactly its warning to
the log and nothing to any slot, while the name shown for class `c` at
0-based index `i < 5` is exactly that of the last fetched row for
`(c, i + 1)` — i.e., in-range rows are placed at index `slot - 1`. -/
theorem claim8_viewer_reshape (rows : List Row) :
    (∀ p ∈ (view_generate_timetable_page rows).1, p.2.length = 5) ∧
      (view_generate_timetable_page rows).2 = warningsOf (sortRows rows) ∧
      ∀ c i, i < 5 →
        gridGet (view_generate_timetable_page rows).1 c i =
          lastVal (sortRows rows) c i :=
  view_fold_spec (sortRows rows)

/-- Concrete rows for the viewer witness: two in-range rows, one
out-of-range row (slot 9). -/
def rowsView : List Row :=
  [⟨"MCA I", 2, "Bob"⟩, ⟨"MCA I", 9, "Zed"⟩, ⟨"MSC I", 1, "Ann"⟩]

/-- C8 witness: the viewer characterization evaluated on `rowsView`: slot 2
lands at index 1, the slot-9 row is only logged. -/
theorem claim8_viewer_reshape_witness :
    gridGet (view_generate_timetable_page rowsView).1 "MCA I" 1 =
        lastVal (sortRows rowsView) "MCA I" 1 ∧
      lastVal (sortRows rowsView) "MCA I" 1 = some "Bob" ∧
      (view_generate_timetable_page rowsView).2 = warningsOf (sortRows rowsView) ∧
      warningsOf (sortRows rowsView) =
        ["Warning: Unexpected slot number 9 for class MCA I"] :=
  ⟨(claim8_viewer_reshape rowsView).2.2 "MCA I" 1 (by decide), by decide,
    (claim8_viewer_reshape rowsView).2.1, by decide⟩

end TT
